import Mathlib

/-!
Shallow embedding of the durable external-process execution pipeline of the
repository (shell-command variant and nmap-scan variant) together with the
client-side task registry, translated from the source files
`generic/workflows.py`, `generic/nmap/workflows.py`, `generic/mcp_server.py`
and `generic/nmap/mcp_server.py`.  Python strings are modelled as lists of
characters; effectful library calls (subprocess spawning, the Temporal engine,
the XML parser front end) are modelled as explicit inputs to the functions
that consume their results.
-/

/-- Python strings are modelled as lists of characters. -/
abbrev Str : Type := List Char

deriving instance DecidableEq for Except

/-- The ASCII part of the character class stripped by Python `str.strip()`
(space, tab, newline, carriage return, vertical tab, form feed). -/
def isPyWs (c : Char) : Bool :=
  c = ' ' || c = '\t' || c = '\n' || c = '\r' || c = Char.ofNat 11 || c = Char.ofNat 12

/-- Embedding of Python `str.strip()`: drop leading and trailing whitespace. -/
def pyStrip (s : Str) : Str :=
  ((s.dropWhile isPyWs).reverse.dropWhile isPyWs).reverse

/-- Decimal digit character, as produced by Python integer formatting. -/
def digitCh (d : Nat) : Char :=
  match d with
  | 0 => '0' | 1 => '1' | 2 => '2' | 3 => '3' | 4 => '4'
  | 5 => '5' | 6 => '6' | 7 => '7' | 8 => '8' | _ => '9'

/-- Digit accumulator for `natToStr`; the first argument is fuel (an upper
bound on the number of digits) so that the recursion is structural and the
function evaluates by reduction. -/
def natToStrAux : Nat → Nat → Str → Str
  | 0, _, acc => acc
  | fuel + 1, n, acc =>
    if n < 10 then digitCh n :: acc
    else natToStrAux fuel (n / 10) (digitCh (n % 10) :: acc)

/-- Embedding of Python `str` applied to a natural number (base 10). -/
def natToStr (n : Nat) : Str :=
  natToStrAux (n + 1) n []

/-- Embedding of Python `str` applied to an integer. -/
def intToStr (i : Int) : Str :=
  if i < 0 then '-' :: natToStr i.natAbs else natToStr i.toNat

/-! ### Embedding of `shlex.split` (posix mode, whitespace splitting)

`validate_scan_input` and `run_nmap_scan` tokenize the option string with
Python `shlex.split`.  The state machine below models the posix-mode lexer
with `whitespace_split=True` and comments disabled: whitespace separates
tokens, single quotes are literal, double quotes allow `\"` and `\\` escapes
(a backslash before any other character is kept), a backslash outside quotes
escapes the next character, an unterminated quote or a trailing backslash is
a lexing error. -/

/-- The lexer states of the `shlex` state machine. -/
inductive ShlexMode where
  | norm
  | esc
  | inSingle
  | inDouble
  | escDouble
deriving DecidableEq

/-- Characters `shlex` treats as token-separating whitespace. -/
def isShlexWs (c : Char) : Bool :=
  c = ' ' || c = '\t' || c = '\r' || c = '\n'

/-- One pass of the `shlex` posix lexer: remaining input, current mode,
characters of the token being built, whether a token has been started
(quotes start an empty token), accumulated tokens. -/
def shlexRun : List Char → ShlexMode → List Char → Bool → List Str →
    Except Str (List Str)
  | [], .norm, cur, started, acc =>
      if started then .ok (acc ++ [cur]) else .ok acc
  | [], .esc, _, _, _ => .error "No escaped character".data
  | [], .escDouble, _, _, _ => .error "No escaped character".data
  | [], .inSingle, _, _, _ => .error "No closing quotation".data
  | [], .inDouble, _, _, _ => .error "No closing quotation".data
  | c :: rest, .norm, cur, started, acc =>
      if isShlexWs c then
        if started then shlexRun rest .norm [] false (acc ++ [cur])
        else shlexRun rest .norm [] false acc
      else if c = '\\' then shlexRun rest .esc cur true acc
      else if c = Char.ofNat 39 then shlexRun rest .inSingle cur true acc
      else if c = '"' then shlexRun rest .inDouble cur true acc
      else shlexRun rest .norm (cur ++ [c]) true acc
  | c :: rest, .esc, cur, _, acc =>
      shlexRun rest .norm (cur ++ [c]) true acc
  | c :: rest, .inSingle, cur, _, acc =>
      if c = Char.ofNat 39 then shlexRun rest .norm cur true acc
      else shlexRun rest .inSingle (cur ++ [c]) true acc
  | c :: rest, .inDouble, cur, _, acc =>
      if c = '"' then shlexRun rest .norm cur true acc
      else if c = '\\' then shlexRun rest .escDouble cur true acc
      else shlexRun rest .inDouble (cur ++ [c]) true acc
  | c :: rest, .escDouble, cur, _, acc =>
      if c = '"' || c = '\\' then shlexRun rest .inDouble (cur ++ [c]) true acc
      else shlexRun rest .inDouble (cur ++ ['\\', c]) true acc

/-- Embedding of Python `shlex.split` (posix, whitespace split, no comments). -/
def shlexSplit (s : Str) : Except Str (List Str) :=
  shlexRun s .norm [] false []

example : shlexSplit "-sT --top-ports 100".data =
    .ok ["-sT".data, "--top-ports".data, "100".data] := by decide

example : shlexSplit ['a', Char.ofNat 39, 'b', ' ', 'c', Char.ofNat 39, 'd'] =
    .ok [['a', 'b', ' ', 'c', 'd']] := by decide

example : (shlexSplit [Char.ofNat 39, 'o', 'p']).isOk = false := by decide

example : shlexSplit "".data = .ok [] := by decide

/-! ### Shell-command variant (`generic/workflows.py`)

The subprocess machinery (`sh -c` spawning, concurrent pipe draining,
heartbeating) is effectful; its observable outcome — the permissively decoded
captured streams and the exit code — is taken as input by the functions that
embed the post-capture logic of the activities. -/

/-- Input dataclass `ShellCommandInput`. -/
structure ShellCommandInput where
  command : Str
  task_id : Str
deriving DecidableEq

/-- Result dict of the `run_shell_command` activity. -/
structure RawResult where
  stdout : Str
  stderr : Str
  exit_code : Int
deriving DecidableEq

/-- Result dict of the `format_output` activity. -/
structure FormattedResult where
  stdout : Str
  stderr : Str
  exit_code : Int
  summary : Str
deriving DecidableEq

/-- Activity `validate_command`: raises when the command is empty or
whitespace-only, otherwise returns `True`. -/
def validateCommand (inp : ShellCommandInput) : Except Str Bool :=
  if pyStrip inp.command = [] then .error "Command must not be empty".data
  else .ok true

/-- Activity `run_shell_command`, after process capture: the decoded streams
and exit code are returned unconditionally as the result dict (the activity
has no failure branch of its own). -/
def runShellCommand (stdout_str stderr_str : Str) (exit_code : Int) :
    Except Str RawResult :=
  .ok { stdout := stdout_str, stderr := stderr_str, exit_code := exit_code }

/-- The `summary_parts` list built by the `format_output` activity: the
exit-code header, then the stdout block (2000-character preview with a
truncation marker) or the no-output line, then the stderr block (500-character
preview) when stderr is non-blank. -/
def summaryParts (stdout stderr : Str) (exit_code : Int) : List Str :=
  (["Command exited with code ".data ++ intToStr exit_code ++ ".".data]
    ++ (if pyStrip stdout ≠ [] then
          ["\nstdout (".data ++ natToStr stdout.length ++ " bytes):\n".data
            ++ stdout.take 2000
            ++ (if stdout.length > 2000 then " [truncated]".data else [])]
        else ["\nNo stdout output.".data]))
  ++ (if pyStrip stderr ≠ [] then
        ["\nstderr (".data ++ natToStr stderr.length ++ " bytes):\n".data
          ++ stderr.take 500
          ++ (if stderr.length > 500 then " [truncated]".data else [])]
      else [])

/-- Activity `format_output`: copies the fields through and joins the summary
parts with newlines. -/
def formatOutput (raw : RawResult) : FormattedResult :=
  { stdout := raw.stdout, stderr := raw.stderr, exit_code := raw.exit_code,
    summary := List.intercalate "\n".data
      (summaryParts raw.stdout raw.stderr raw.exit_code) }

/-- The per-stage dispatch configuration passed to `workflow.execute_activity`
(attempt limit, start-to-close timeout, optional heartbeat timeout, both in
seconds). -/
structure StagePolicy where
  maximumAttempts : Nat
  startToCloseSeconds : Nat
  heartbeatSeconds : Option Nat
deriving DecidableEq

/-- `workflow.execute_activity`: the engine dispatches the activity under the
given policy; retries and deadlines are enforced engine-side, so the value
observed by the workflow is the activity outcome itself. -/
def executeActivity (_policy : StagePolicy) (outcome : Except Str α) :
    Except Str α :=
  outcome

/-- Policy of the validate stage of `ShellCommandWorkflow.run`. -/
def shellValidatePolicy : StagePolicy :=
  { maximumAttempts := 1, startToCloseSeconds := 30, heartbeatSeconds := none }

/-- Policy of the execute stage of `ShellCommandWorkflow.run`
(`timedelta(hours=4)`, `timedelta(minutes=2)`). -/
def shellExecutePolicy : StagePolicy :=
  { maximumAttempts := 3, startToCloseSeconds := 4 * 60 * 60,
    heartbeatSeconds := some (2 * 60) }

/-- Policy of the format stage of `ShellCommandWorkflow.run`. -/
def shellFormatPolicy : StagePolicy :=
  { maximumAttempts := 2, startToCloseSeconds := 60, heartbeatSeconds := none }

/-- `ShellCommandWorkflow.run`: validate, then run the command, then format.
The execute stage's process outcome is the `execOutcome` input. -/
def shellWorkflowRun (execOutcome : Except Str RawResult)
    (inp : ShellCommandInput) : Except Str FormattedResult := do
  let _ ← executeActivity shellValidatePolicy (validateCommand inp)
  let raw ← executeActivity shellExecutePolicy execOutcome
  let result ← executeActivity shellFormatPolicy (.ok (formatOutput raw))
  return result

/-! ### Nmap-scan variant, validation and execution
(`generic/nmap/workflows.py`) -/

/-- Input dataclass `NmapScanInput`. -/
structure NmapScanInput where
  target : Str
  nmap_args : Str
  scan_id : Str
deriving DecidableEq

/-- The character class of `BLOCKED_METACHARACTERS`:
semicolon, ampersand, pipe, backquote, dollar, parentheses, braces,
angle brackets, newline, carriage return. -/
def blockedMetachars : List Char :=
  [';', '&', '|', Char.ofNat 96, '$', '(', ')',
   Char.ofNat 123, Char.ofNat 125, '<', '>', '\n', '\r']

/-- `BLOCKED_METACHARACTERS.search`: does the string contain a blocked
metacharacter? -/
def containsBlockedMeta (s : Str) : Bool :=
  s.any (fun c => blockedMetachars.contains c)

/-- The `BLOCKED_FLAGS` deny-list (all stored lowercase). -/
def blockedFlags : List Str :=
  ["--script-args".data, "-il".data, "-on".data, "-ox".data,
   "-og".data, "-oa".data, "--datadir".data]

/-- `token.split("=", 1)[0].lower()`: the part before the first equals sign,
lowercased. -/
def canonicalFlag (t : Str) : Str :=
  (t.takeWhile (fun c => c ≠ '=')).map Char.toLower

/-- Is a token's canonical form on the flag deny-list? -/
def isBlockedToken (t : Str) : Bool :=
  blockedFlags.contains (canonicalFlag t)

/-- `shlex.split(args) if args.strip() else []`, shared by
`validate_scan_input` and `run_nmap_scan`. -/
def argsTokens (args : Str) : Except Str (List Str) :=
  if pyStrip args ≠ [] then shlexSplit args else .ok []

/-- Activity `validate_scan_input`: metacharacter deny-list on target and
args, lexical tokenization of the args, flag deny-list on each token,
non-empty target; raises on the first violation, else returns `True`. -/
def validateScanInput (inp : NmapScanInput) : Except Str Bool :=
  if containsBlockedMeta inp.target then
    .error "Target contains blocked characters".data
  else if containsBlockedMeta inp.nmap_args then
    .error "Arguments contain blocked characters".data
  else
    match argsTokens inp.nmap_args with
    | .error _ => .error "Arguments are not parseable".data
    | .ok tokens =>
      match tokens.find? isBlockedToken with
      | some t => .error ("Blocked nmap flag: ".data ++ canonicalFlag t)
      | none =>
        if pyStrip inp.target = [] then .error "Target must not be empty".data
        else .ok true

/-- The argv assembled by `run_nmap_scan`:
`["nmap", *args_tokens, "-oX", "-", target]`, passed to
`create_subprocess_exec` (no shell interpreter in the chain). -/
def nmapCommand (inp : NmapScanInput) : Except Str (List Str) :=
  match argsTokens inp.nmap_args with
  | .error e => .error e
  | .ok toks => .ok ("nmap".data :: toks ++ ["-oX".data, "-".data, inp.target])

/-- The `RuntimeError` message raised by `run_nmap_scan`, carrying the exit
code and the captured stderr. -/
def nmapFailureMessage (return_code : Int) (stderr_str : Str) : Str :=
  "nmap exited with code ".data ++ intToStr return_code
    ++ ". stderr: ".data ++ stderr_str

/-- Activity `run_nmap_scan`, after process capture: raises when the exit
code is non-zero and the decoded stdout strips to empty; otherwise returns
the raw XML text (stdout only — stderr and exit code are not part of the
result). -/
def runNmapScan (stdout_str stderr_str : Str) (return_code : Int) :
    Except Str Str :=
  if return_code ≠ 0 ∧ pyStrip stdout_str = [] then
    .error (nmapFailureMessage return_code stderr_str)
  else .ok stdout_str

example : runNmapScan [] "boom".data 2 =
    .error "nmap exited with code 2. stderr: boom".data := by decide

example : (runShellCommand [] "boom".data 2).isOk = true := by decide

/-! ### Nmap-scan variant, XML structuring (`parse_nmap_xml`)

`ET.fromstring` is the external XML library; the activity logic below is
translated over an element-tree value (tag, attributes, children).  A
malformed document is a failure of the library front end, modelled where the
workflow composes the stages. -/

/-- An element of the parsed XML document tree. -/
inductive Xml where
  | elem (tag : Str) (attrs : List (Str × Str)) (children : List Xml)

/-- Tag of an element. -/
def Xml.tag : Xml → Str
  | .elem t _ _ => t

/-- Attribute list of an element. -/
def Xml.attrs : Xml → List (Str × Str)
  | .elem _ a _ => a

/-- Children of an element. -/
def Xml.children : Xml → List Xml
  | .elem _ _ c => c

/-- `Element.get(key)`: the attribute value, if present. -/
def Xml.get (x : Xml) (key : Str) : Option Str :=
  (x.attrs.find? (fun p => p.1 == key)).map (fun p => p.2)

/-- `Element.get(key, default)` with a string default. -/
def Xml.getD (x : Xml) (key dflt : Str) : Str :=
  (x.get key).getD dflt

/-- `Element.findall(tag)`: the direct children with the given tag. -/
def Xml.findall (x : Xml) (t : Str) : List Xml :=
  x.children.filter (fun c => c.tag == t)

/-- `Element.find(tag)`: the first direct child with the given tag. -/
def Xml.find (x : Xml) (t : Str) : Option Xml :=
  x.children.find? (fun c => c.tag == t)

/-- Digit run evaluated to a number; `none` when empty or non-digit. -/
def digitsVal (ds : List Char) : Option Nat :=
  if ds = [] then none
  else ds.foldl
    (fun acc? c => acc?.bind
      (fun acc => if c.isDigit then some (acc * 10 + (c.toNat - 48)) else none))
    (some 0)

/-- Embedding of Python `int()` on a string: optional sign and decimal digits
after stripping whitespace (digit-group underscores are not modelled). -/
def pyInt (s : Str) : Option Int :=
  match pyStrip s with
  | '-' :: ds => (digitsVal ds).map (fun n => -(n : Int))
  | '+' :: ds => (digitsVal ds).map (fun n => (n : Int))
  | ds => (digitsVal ds).map (fun n => (n : Int))

/-- `int(elem.get(key, 0))`: missing attribute gives `0`, an unparsable
attribute raises. -/
def xmlIntAttr (x : Xml) (key : Str) : Except Str Int :=
  match x.get key with
  | none => .ok 0
  | some s =>
    match pyInt s with
    | some v => .ok v
    | none => .error "invalid literal for int".data

/-- One entry of a host's `ports` list. -/
structure PortData where
  port : Int
  protocol : Str
  state : Option Str
  reason : Option Str
  service : Option Str
  product : Option Str
  version : Option Str
  extra_info : Option Str
  scripts : List (Str × Str)
deriving DecidableEq

/-- One entry of a host's `addresses` list. -/
structure AddressData where
  addr : Str
  type_ : Str
  vendor : Str
deriving DecidableEq

/-- One entry of a host's `hostnames` list. -/
structure HostnameData where
  name : Str
  type_ : Str
deriving DecidableEq

/-- One entry of a host's `os_matches` list. -/
structure OsMatchData where
  name : Str
  accuracy : Str
deriving DecidableEq

/-- The per-host record built by `parse_nmap_xml`. -/
structure HostData where
  status : Option Str
  addresses : List AddressData
  hostnames : List HostnameData
  ports : List PortData
  os_matches : List OsMatchData
  host_scripts : List (Str × Str)
  open_ports_summary : Str
deriving DecidableEq

/-- The `scan_info` record (conditionally present keys are options). -/
structure ScanInfo where
  scanner : Str
  args : Str
  start_time : Str
  xml_version : Str
  end_time : Option Str
  elapsed : Option Str
  hosts_up : Option Int
  hosts_down : Option Int
  hosts_total : Option Int
deriving DecidableEq

/-- The structured result of `parse_nmap_xml`. -/
structure ScanResult where
  scan_info : ScanInfo
  hosts : List HostData
  summary : Str
deriving DecidableEq

/-- One `port` element to a `PortData` record. -/
def parsePort (pe : Xml) : Except Str PortData := do
  let port ← xmlIntAttr pe "portid".data
  let stateElem := pe.find "state".data
  let serviceElem := pe.find "service".data
  .ok { port := port,
        protocol := pe.getD "protocol".data [],
        state := stateElem.map (fun se => se.getD "state".data []),
        reason := stateElem.map (fun se => se.getD "reason".data []),
        service := serviceElem.map (fun se => se.getD "name".data []),
        product := serviceElem.map (fun se => se.getD "product".data []),
        version := serviceElem.map (fun se => se.getD "version".data []),
        extra_info := serviceElem.map (fun se => se.getD "extrainfo".data []),
        scripts := (pe.findall "script".data).map
          (fun s => (s.getD "id".data [], s.getD "output".data [])) }

/-- The entry of the open-ports summary for one port:
`port/protocol (service)` with `unknown` for a missing service. -/
def portEntry (p : PortData) : Str :=
  intToStr p.port ++ "/".data ++ p.protocol ++ " (".data
    ++ p.service.getD "unknown".data ++ ")".data

/-- The derived one-line open-ports summary: the comma-joined entries of the
ports whose state is exactly `open`. -/
def openPortsSummary (ports : List PortData) : Str :=
  List.intercalate ", ".data
    ((ports.filter (fun p => p.state == some "open".data)).map portEntry)

/-- The `ports` list of one host element (empty when the `ports` child is
absent). -/
def parseHostPorts (he : Xml) : Except Str (List PortData) :=
  match he.find "ports".data with
  | none => .ok []
  | some pse => (pse.findall "port".data).mapM parsePort

/-- One `host` element to a `HostData` record. -/
def parseHost (he : Xml) : Except Str HostData :=
  match parseHostPorts he with
  | .error e => .error e
  | .ok ports =>
  .ok { status := (he.find "status".data).map
          (fun se => se.getD "state".data "unknown".data),
        addresses := (he.findall "address".data).map
          (fun a => { addr := a.getD "addr".data [],
                      type_ := a.getD "addrtype".data [],
                      vendor := a.getD "vendor".data [] }),
        hostnames := (match he.find "hostnames".data with
          | none => []
          | some hs => (hs.findall "hostname".data).map
              (fun hn => { name := hn.getD "name".data [],
                           type_ := hn.getD "type".data [] })),
        ports := ports,
        os_matches := (match he.find "os".data with
          | none => []
          | some os => (os.findall "osmatch".data).map
              (fun om => { name := om.getD "name".data [],
                           accuracy := om.getD "accuracy".data [] })),
        host_scripts := (match he.find "hostscript".data with
          | none => []
          | some hsc => (hsc.findall "script".data).map
              (fun s => (s.getD "id".data [], s.getD "output".data []))),
        open_ports_summary := openPortsSummary ports }

/-- The `scan_info` extraction from the document root. -/
def parseScanInfo (root : Xml) : Except Str ScanInfo :=
  let base : ScanInfo :=
    { scanner := root.getD "scanner".data "nmap".data,
      args := root.getD "args".data [],
      start_time := root.getD "startstr".data [],
      xml_version := root.getD "xmloutputversion".data [],
      end_time := none, elapsed := none,
      hosts_up := none, hosts_down := none, hosts_total := none }
  match root.find "runstats".data with
  | none => .ok base
  | some rs =>
    let base := match rs.find "finished".data with
      | none => base
      | some f => { base with end_time := some (f.getD "timestr".data []),
                              elapsed := some (f.getD "elapsed".data []) }
    match rs.find "hosts".data with
    | none => .ok base
    | some h => do
        let up ← xmlIntAttr h "up".data
        let down ← xmlIntAttr h "down".data
        let total ← xmlIntAttr h "total".data
        .ok { base with hosts_up := some up, hosts_down := some down,
                        hosts_total := some total }

/-- An optional host count formatted as Python does
(`scan_info.get(key, "?")`). -/
def optIntStr : Option Int → Str
  | some v => intToStr v
  | none => "?".data

/-- The digest lines contributed by the host at index `i`. -/
def hostDigest (i : Nat) (h : HostData) : List Str :=
  let addr_str := List.intercalate ", ".data (h.addresses.map (fun a => a.addr))
  let hostname_str := List.intercalate ", ".data
    ((h.hostnames.filter (fun hn => hn.name ≠ [])).map (fun hn => hn.name))
  let host_label := addr_str ++
    (if hostname_str ≠ [] then " (".data ++ hostname_str ++ ")".data else [])
  ["\nHost ".data ++ natToStr (i + 1) ++ ": ".data ++ host_label
      ++ " [".data ++ h.status.getD "?".data ++ "]".data]
    ++ (if h.open_ports_summary ≠ [] then
          ["  Open ports: ".data ++ h.open_ports_summary]
        else ["  No open ports found.".data])
    ++ (h.os_matches.take 3).map
        (fun osm => "  OS guess: ".data ++ osm.name ++ " (".data
          ++ osm.accuracy ++ "% accuracy)".data)

/-- Activity `parse_nmap_xml`, over the parsed document tree. -/
def parseNmapXml (root : Xml) : Except Str ScanResult := do
  let si ← parseScanInfo root
  let hosts ← (root.findall "host".data).mapM parseHost
  let parts :=
    ["Nmap scan completed. ".data ++ optIntStr si.hosts_up
        ++ " host(s) up out of ".data ++ optIntStr si.hosts_total
        ++ " scanned.".data]
      ++ (hosts.enum.map (fun p => hostDigest p.1 p.2)).flatten
  .ok { scan_info := si, hosts := hosts,
        summary := List.intercalate "\n".data parts }

/-- Policy of the validate stage of `NmapScanWorkflow.run`. -/
def nmapValidatePolicy : StagePolicy :=
  { maximumAttempts := 1, startToCloseSeconds := 30, heartbeatSeconds := none }

/-- Policy of the execute stage of `NmapScanWorkflow.run`
(`timedelta(hours=4)`, `timedelta(minutes=2)`). -/
def nmapExecutePolicy : StagePolicy :=
  { maximumAttempts := 3, startToCloseSeconds := 4 * 60 * 60,
    heartbeatSeconds := some (2 * 60) }

/-- Policy of the parse stage of `NmapScanWorkflow.run`. -/
def nmapParsePolicy : StagePolicy :=
  { maximumAttempts := 2, startToCloseSeconds := 60, heartbeatSeconds := none }

/-- `NmapScanWorkflow.run`: validate, then run the scan, then parse the XML.
The execute stage's process outcome and the XML front end are inputs. -/
def nmapWorkflowRun (execOutcome : Except Str Str)
    (fromstring : Str → Except Str Xml) (inp : NmapScanInput) :
    Except Str ScanResult := do
  let _ ← executeActivity nmapValidatePolicy (validateScanInput inp)
  let raw_xml ← executeActivity nmapExecutePolicy execOutcome
  let result ← executeActivity nmapParsePolicy
    ((fromstring raw_xml).bind parseNmapXml)
  return result

/-! ### Task registry and status polling
(`generic/mcp_server.py`, `generic/nmap/mcp_server.py`)

The Temporal client is the external engine: `handle.describe()` is modelled
as an `Except`-valued input (an engine-side lookup failure for an unknown
identifier raises), carrying on success the optional status object's `name`
string.  The two server variants define character-for-character identical
`_normalize_workflow_status` functions; it is embedded once. -/

/-- `_normalize_workflow_status`: `None` becomes `UNKNOWN`; otherwise the
status object's name is returned with a leading `WORKFLOW_EXECUTION_STATUS_`
stripped (the guarded `replace(..., "", 1)` removes exactly that leading
occurrence). -/
def normalizeWorkflowStatus : Option Str → Str
  | none => "UNKNOWN".data
  | some raw =>
    if "WORKFLOW_EXECUTION_STATUS_".data.isPrefixOf raw then
      raw.drop "WORKFLOW_EXECUTION_STATUS_".data.length
    else raw

/-- A registry entry of the shell server (`_task_registry[task_id]`). -/
structure TaskMeta where
  command : Str
  label : Str
  started_at : Str
  status : Str
deriving DecidableEq

/-- The in-memory task registry. -/
abbrev Registry : Type := List (Str × TaskMeta)

/-- Lookup of a task identifier in the registry (`task_id in _task_registry`). -/
def registryFind (reg : Registry) (tid : Str) : Option TaskMeta :=
  (reg.find? (fun p => p.1 == tid)).map (fun p => p.2)

/-- Status upsert for one identifier
(`_task_registry[task_id]["status"] = s`). -/
def registryUpdate (reg : Registry) (tid : Str) (s : Str) : Registry :=
  reg.map (fun p => if p.1 == tid then (p.1, { p.2 with status := s }) else p)

/-- The value returned by `check_task_status` (keys present conditionally are
options). -/
structure CheckResult where
  task_id : Str
  status : Str
  label : Option Str
  command : Option Str
  started_at : Option Str
  message : Str
deriving DecidableEq

/-- Tool `check_task_status`: describes the workflow, normalizes the status,
updates the cached record when the identifier is known, and builds a
status-appropriate message.  A failing `describe` propagates — the body has
no exception handler. -/
def checkTaskStatus (reg : Registry) (task_id : Str)
    (describe : Except Str (Option Str)) : Except Str (CheckResult × Registry) :=
  match describe with
  | .error e => .error e
  | .ok st =>
    let status_name := normalizeWorkflowStatus st
    let reg' := if (registryFind reg task_id).isSome then
        registryUpdate reg task_id status_name
      else reg
    let meta? := registryFind reg task_id
    let message :=
      if status_name == "COMPLETED".data then
        "Task finished! Use get_task_results to retrieve results.".data
      else if status_name == "FAILED".data then
        "Task failed. Check Temporal UI at :8080 for details.".data
      else if status_name == "RUNNING".data then
        "Task is still running. Check again shortly.".data
      else "Workflow status: ".data ++ status_name
    .ok ({ task_id := task_id, status := status_name,
           label := meta?.map (fun m => m.label),
           command := meta?.map (fun m => m.command),
           started_at := meta?.map (fun m => m.started_at),
           message := message }, reg')

/-- The value returned by `get_task_results`: either the not-yet-complete
indication or the completed task's structured result. -/
inductive FetchOut (α : Type) where
  | notReady (task_id : Str) (status : Str) (errmsg : Str)
  | completed (task_id : Str) (result : α)
deriving DecidableEq

/-- Tool `get_task_results`: describes the workflow; a non-`COMPLETED` status
gives a not-ready value, `COMPLETED` returns the workflow result (an input
here, read from the engine).  A failing `describe` propagates — the body has
no exception handler. -/
def getTaskResults (reg : Registry) (task_id : Str)
    (describe : Except Str (Option Str)) (resultVal : α) :
    Except Str (FetchOut α × Registry) :=
  match describe with
  | .error e => .error e
  | .ok st =>
    let status_name := normalizeWorkflowStatus st
    if status_name ≠ "COMPLETED".data then
      .ok (.notReady task_id status_name
        ("Task is not yet complete (status: ".data ++ status_name
          ++ "). Use check_task_status to poll.".data), reg)
    else
      .ok (.completed task_id resultVal,
        if (registryFind reg task_id).isSome then
          registryUpdate reg task_id "COMPLETED".data
        else reg)

/-- Tool `list_recent_tasks`: every known record is listed; a record whose
cached status is `RUNNING` or `UNKNOWN` is refreshed from the engine, and a
refresh failure downgrades that entry to `UNKNOWN` instead of aborting
(`except Exception`). -/
def listRecentTasks (reg : Registry)
    (describe : Str → Except Str (Option Str)) :
    List (Str × TaskMeta) × Registry :=
  reg.foldl
    (fun acc p =>
      let (tid, meta) := p
      if meta.status == "RUNNING".data || meta.status == "UNKNOWN".data then
        match describe tid with
        | .ok st =>
          let s := normalizeWorkflowStatus st
          (acc.1 ++ [(tid, { meta with status := s })],
           registryUpdate acc.2 tid s)
        | .error _ =>
          (acc.1 ++ [(tid, { meta with status := "UNKNOWN".data })], acc.2)
      else (acc.1 ++ [(tid, meta)], acc.2))
    ([], reg)

/-! ### Fixture for the scan XML round-trip property -/

/-- The host element of the fixture document: a host that is up, with one
address, one hostname, and one open tcp port 22 running ssh. -/
def fixtureHostElem : Xml :=
  .elem "host".data []
    [ .elem "status".data [("state".data, "up".data)] [],
      .elem "address".data
        [("addr".data, "10.0.0.1".data), ("addrtype".data, "ipv4".data)] [],
      .elem "hostnames".data []
        [.elem "hostname".data
          [("name".data, "example.com".data), ("type".data, "user".data)] []],
      .elem "ports".data []
        [.elem "port".data
          [("protocol".data, "tcp".data), ("portid".data, "22".data)]
          [ .elem "state".data
              [("state".data, "open".data), ("reason".data, "syn-ack".data)] [],
            .elem "service".data [("name".data, "ssh".data)] [] ]] ]

/-- The fixture document: one host with one open port 22/tcp running ssh. -/
def fixtureXml : Xml :=
  .elem "nmaprun".data
    [("scanner".data, "nmap".data), ("args".data, "nmap -sT host".data),
     ("startstr".data, "now".data), ("xmloutputversion".data, "1.05".data)]
    [ fixtureHostElem,
      .elem "runstats".data []
        [ .elem "finished".data
            [("timestr".data, "later".data), ("elapsed".data, "1.00".data)] [],
          .elem "hosts".data
            [("up".data, "1".data), ("down".data, "0".data),
             ("total".data, "1".data)] [] ] ]

/-- The host record the parser produces from `fixtureHostElem`. -/
def fixtureHostData : HostData :=
  { status := some "up".data,
    addresses := [{ addr := "10.0.0.1".data, type_ := "ipv4".data,
                    vendor := [] }],
    hostnames := [{ name := "example.com".data, type_ := "user".data }],
    ports := [{ port := 22, protocol := "tcp".data, state := some "open".data,
                reason := some "syn-ack".data, service := some "ssh".data,
                product := some [], version := some [], extra_info := some [],
                scripts := [] }],
    os_matches := [],
    host_scripts := [],
    open_ports_summary := "22/tcp (ssh)".data }

/-! ### Helper lemmas -/

/-- `str.strip()` is empty exactly when every character is whitespace. -/
theorem pyStrip_eq_nil_iff (s : Str) : pyStrip s = [] ↔ ∀ c ∈ s, isPyWs c := by
  unfold pyStrip
  simp only [List.reverse_eq_nil_iff, List.dropWhile_eq_nil_iff, List.mem_reverse]
  constructor
  · intro h c hc
    rw [← List.takeWhile_append_dropWhile (p := isPyWs) (l := s)] at hc
    rcases List.mem_append.mp hc with h1 | h2
    · exact List.mem_takeWhile_imp h1
    · exact h c h2
  · intro h c hc
    exact h c ((List.dropWhile_sublist isPyWs).subset hc)

/-- Every digit character is one of the ten decimal digits. -/
theorem digitCh_mem (d : Nat) : digitCh d ∈ "0123456789".data := by
  unfold digitCh
  split <;> decide

/-- Characters produced by the digit accumulator are digits or come from the
accumulator. -/
theorem natToStrAux_mem (fuel : Nat) :
    ∀ n acc c, c ∈ natToStrAux fuel n acc →
      c ∈ "0123456789".data ∨ c ∈ acc := by
  induction fuel with
  | zero => intro n acc c hc; exact Or.inr hc
  | succ fuel ih =>
    intro n acc c hc
    unfold natToStrAux at hc
    split at hc
    · rcases List.mem_cons.mp hc with rfl | h
      · exact Or.inl (digitCh_mem n)
      · exact Or.inr h
    · rcases ih _ _ c hc with h | h
      · exact Or.inl h
      · rcases List.mem_cons.mp h with rfl | h
        · exact Or.inl (digitCh_mem (n % 10))
        · exact Or.inr h

/-- Python integer formatting never produces an opening square bracket. -/
theorem intToStr_no_lbracket (i : Int) : '[' ∉ intToStr i := by
  have hnat : ∀ n : Nat, '[' ∉ natToStr n := by
    intro n h
    rcases natToStrAux_mem (n + 1) n [] '[' h with h1 | h1
    · exact absurd h1 (by decide)
    · exact absurd h1 (List.not_mem_nil '[')
  unfold intToStr
  split
  · intro h
    rcases List.mem_cons.mp h with h1 | h1
    · exact absurd h1 (by decide)
    · exact hnat _ h1
  · exact hnat _

/-- The truncation marker cannot occur in a string with no opening square
bracket. -/
theorem markerNotWithin {s : Str} (h : '[' ∉ s) :
    ¬ ("[truncated]".data <:+: s) := by
  intro hin
  exact h (hin.sublist.subset (by decide))

/-- A word avoiding the separator that sits at the front of `A ++ c :: B`
sits at the front of `A`. -/
theorem pfxThroughSep {m A B : List Char} {c : Char} (hc : c ∉ m)
    (h : m <+: A ++ c :: B) : m <+: A := by
  induction A generalizing m with
  | nil =>
    match m, h with
    | [], _ => exact List.nil_prefix
    | x :: m', h =>
      have hx := (List.cons_prefix_cons.mp h).1
      exact absurd (List.mem_cons.mpr (Or.inl hx.symm)) hc
  | cons a A' ih =>
    match m, h with
    | [], _ => exact List.nil_prefix
    | x :: m', h =>
      have h2 := List.cons_prefix_cons.mp h
      have hm' : m' <+: A' :=
        ih (fun hm => hc (List.mem_cons_of_mem _ hm)) h2.2
      exact List.cons_prefix_cons.mpr ⟨h2.1, hm'⟩

/-- A word avoiding the separator that occurs inside `A ++ c :: B` occurs
inside `A` or inside `B`. -/
theorem infixThroughSep {m A B : List Char} {c : Char} (hc : c ∉ m)
    (h : m <:+: A ++ c :: B) : m <:+: A ∨ m <:+: B := by
  induction A with
  | nil =>
    rcases List.infix_cons_iff.mp h with hp | hi
    · have hm : m <+: ([] : List Char) := pfxThroughSep hc hp
      rw [List.prefix_nil.mp hm]
      exact Or.inl List.nil_infix
    · exact Or.inr hi
  | cons a A' ih =>
    rcases List.infix_cons_iff.mp h with hp | hi
    · exact Or.inl (pfxThroughSep hc hp).isInfix
    · rcases ih hi with h1 | h2
      · exact Or.inl (List.infix_cons h1)
      · exact Or.inr h2

/-- Two summary parts joined with a newline. -/
theorem intercalate_pair (p q : Str) :
    List.intercalate "\n".data [p, q] = p ++ '\n' :: q := by
  simp [List.intercalate, List.intersperse]

/-- Three summary parts joined with newlines. -/
theorem intercalate_triple (p q r : Str) :
    List.intercalate "\n".data [p, q, r] = p ++ '\n' :: (q ++ '\n' :: r) := by
  simp [List.intercalate, List.intersperse]

/-! ### Claims -/

/-- C1: for every scan input, `validate_scan_input` succeeds (returns `True`)
exactly when the target and the option string are free of deny-listed
metacharacters (including newline and carriage return), the option string
tokenizes as shell words, no token — lowercased after removing a trailing
`=value` — is a deny-listed flag, and the target is non-empty after
trimming; it raises whenever any of these conditions is violated. -/
theorem C1_validate_scan_input_iff (inp : NmapScanInput) :
    (validateScanInput inp).isOk = true ↔
      (containsBlockedMeta inp.target = false ∧
       containsBlockedMeta inp.nmap_args = false ∧
       (∃ tokens, argsTokens inp.nmap_args = .ok tokens ∧
         ∀ t ∈ tokens, isBlockedToken t = false) ∧
       pyStrip inp.target ≠ []) := by
  unfold validateScanInput
  split
  · next hmt =>
    simp [Except.isOk, Except.toBool, hmt]
  · next hmt =>
    split
    · next hma =>
      simp [Except.isOk, Except.toBool, hma]
    · next hma =>
      split
      · next e heq =>
        simp only [Except.isOk, Except.toBool, Bool.false_eq_true, false_iff]
        intro hcontra
        rcases hcontra.2.2.1 with ⟨tokens, htok, _⟩
        rw [heq] at htok
        exact Except.noConfusion htok
      · next tokens heq =>
        split
        · next t hfind =>
          simp only [Except.isOk, Except.toBool, Bool.false_eq_true, false_iff]
          intro hcontra
          rcases hcontra.2.2.1 with ⟨tokens', htok, hall⟩
          rw [heq] at htok
          injection htok with htok
          subst htok
          have hmem := List.mem_of_find?_eq_some hfind
          have hblocked := List.find?_some hfind
          have := hall t hmem
          rw [this] at hblocked
          exact Bool.noConfusion hblocked
        · next hfind =>
          split
          · next hempty =>
            simp only [Except.isOk, Except.toBool, Bool.false_eq_true, false_iff]
            intro hcontra
            exact hcontra.2.2.2 hempty
          · next hempty =>
            simp only [Except.isOk, Except.toBool, true_iff]
            refine ⟨by simp [Bool.not_eq_true] at hmt ⊢; exact hmt,
                    by simp [Bool.not_eq_true] at hma ⊢; exact hma,
                    ⟨tokens, heq, ?_⟩, hempty⟩
            intro t ht
            have := List.find?_eq_none.mp hfind t ht
            simpa using this

/-- Witness for C1 at a concrete valid input. -/
theorem C1_witness :
    (validateScanInput
      { target := "scanme.nmap.org".data,
        nmap_args := "-sT --top-ports 100".data,
        scan_id := "scan-1".data }).isOk = true :=
  (C1_validate_scan_input_iff _).mpr
    ⟨by decide, by decide,
     ⟨["-sT".data, "--top-ports".data, "100".data], by decide, by decide⟩,
     by decide⟩

/-- C2 counterexample: the shell-variant execute activity reports success on
a non-zero exit with empty stdout (the claim demands an execution failure
there for both variants; only the scan variant has that branch). -/
theorem C2_counterexample :
    (1 : Int) ≠ 0 ∧ pyStrip [] = [] ∧
      runShellCommand [] "boom".data 1 =
        .ok { stdout := [], stderr := "boom".data, exit_code := 1 } :=
  ⟨by decide, rfl, rfl⟩

/-- C2 amended: only the scan-variant execute activity fails — with a message
carrying the exit code and the captured stderr — exactly when the exit code
is non-zero and stdout strips to empty (empty or whitespace-only); the shell
variant always returns the result dict regardless of the exit code. -/
theorem C2_amended (stdout_str stderr_str : Str) (exit_code : Int) :
    runShellCommand stdout_str stderr_str exit_code =
        .ok { stdout := stdout_str, stderr := stderr_str,
              exit_code := exit_code } ∧
      (runNmapScan stdout_str stderr_str exit_code =
          .error (nmapFailureMessage exit_code stderr_str) ↔
        (exit_code ≠ 0 ∧ pyStrip stdout_str = [])) ∧
      (¬ (exit_code ≠ 0 ∧ pyStrip stdout_str = []) →
        runNmapScan stdout_str stderr_str exit_code = .ok stdout_str) := by
  refine ⟨rfl, ?_, ?_⟩
  · unfold runNmapScan
    split
    · next h => simp [h]
    · next h => simp [h]
  · intro h
    unfold runNmapScan
    rw [if_neg h]

/-- Witness for C2 amended at a concrete successful execution. -/
theorem C2_amended_witness :
    runShellCommand "hi".data [] 0 =
        .ok { stdout := "hi".data, stderr := [], exit_code := 0 } ∧
      runNmapScan "hi".data [] 0 = .ok "hi".data :=
  ⟨(C2_amended "hi".data [] 0).1, (C2_amended "hi".data [] 0).2.2 (by decide)⟩

/-- C3 counterexample: the engine status name `TERMINATED` is passed through
by `_normalize_workflow_status`, so the function's range is not the closed
four-value vocabulary and an unrecognized status does not become `UNKNOWN`. -/
theorem C3_counterexample :
    normalizeWorkflowStatus (some "TERMINATED".data) ∉
      ["RUNNING".data, "COMPLETED".data, "FAILED".data, "UNKNOWN".data] := by
  decide

/-- C3 amended: `_normalize_workflow_status` returns `UNKNOWN` only for a
`None` status; any other status object's name is returned unchanged apart
from stripping a leading `WORKFLOW_EXECUTION_STATUS_`, so engine-native
statuses such as `TERMINATED` leak through instead of mapping to `UNKNOWN`. -/
theorem C3_amended :
    normalizeWorkflowStatus none = "UNKNOWN".data ∧
      (∀ s : Str, ¬ ("WORKFLOW_EXECUTION_STATUS_".data <+: s) →
        normalizeWorkflowStatus (some s) = s) ∧
      normalizeWorkflowStatus
          (some "WORKFLOW_EXECUTION_STATUS_TERMINATED".data) =
        "TERMINATED".data := by
  refine ⟨rfl, ?_, by decide⟩
  intro s h
  unfold normalizeWorkflowStatus
  have hb : "WORKFLOW_EXECUTION_STATUS_".data.isPrefixOf s = false := by
    rw [← Bool.not_eq_true, List.isPrefixOf_iff_prefix]
    exact h
  simp [hb]

/-- Witness for C3 amended: a bare engine status name passes through. -/
theorem C3_amended_witness :
    normalizeWorkflowStatus (some "TERMINATED".data) = "TERMINATED".data :=
  C3_amended.2.1 "TERMINATED".data (by decide)

/-- C4 counterexample: a failing engine lookup (unknown task identifier)
propagates out of `check_task_status` instead of yielding an
`UNKNOWN`-status result. -/
theorem C4_counterexample :
    checkTaskStatus [] "task-unknown".data (.error "workflow not found".data) =
      .error "workflow not found".data := rfl

/-- C4 amended: `check`/`fetch` return a well-formed status-bearing value
whenever the engine lookup succeeds, but an engine-side lookup failure
propagates as an exception out of both; only the list operation catches a
refresh failure and downgrades that entry to `UNKNOWN`. -/
theorem C4_amended :
    (∀ (reg : Registry) (tid : Str) (st : Option Str),
        ∃ out reg', checkTaskStatus reg tid (.ok st) = .ok (out, reg') ∧
          out.task_id = tid ∧ out.status = normalizeWorkflowStatus st) ∧
      (∀ (reg : Registry) (tid e : Str),
        checkTaskStatus reg tid (.error e) = .error e) ∧
      (∀ (reg : Registry) (tid : Str) (st : Option Str) (rv : Nat),
        (getTaskResults reg tid (.ok st) rv).isOk = true) ∧
      (∀ (reg : Registry) (tid e : Str) (rv : Nat),
        getTaskResults reg tid (.error e) rv = .error e) ∧
      (∀ (tid : Str) (meta : TaskMeta) (e : Str)
          (describe : Str → Except Str (Option Str)),
        meta.status = "RUNNING".data → describe tid = .error e →
        (listRecentTasks [(tid, meta)] describe).1 =
          [(tid, { meta with status := "UNKNOWN".data })]) := by
  refine ⟨?_, ?_, ?_, ?_, ?_⟩
  · intro reg tid st
    exact ⟨_, _, rfl, rfl, rfl⟩
  · intro reg tid e
    rfl
  · intro reg tid st rv
    simp only [getTaskResults]
    split <;> rfl
  · intro reg tid e rv
    rfl
  · intro tid meta e describe hst hd
    simp [listRecentTasks, hst, hd]

/-- Witness for C4 amended: a running entry whose refresh fails is listed as
`UNKNOWN`. -/
theorem C4_amended_witness :
    (listRecentTasks
        [("t1".data, { command := "ls".data, label := "ls".data,
                       started_at := "now".data, status := "RUNNING".data })]
        (fun _ => .error "x".data)).1 =
      [("t1".data, { command := "ls".data, label := "ls".data,
                     started_at := "now".data, status := "UNKNOWN".data })] :=
  C4_amended.2.2.2.2 "t1".data
    { command := "ls".data, label := "ls".data,
      started_at := "now".data, status := "RUNNING".data }
    "x".data (fun _ => .error "x".data) rfl rfl

/-- Natural-number formatting never produces an opening square bracket. -/
theorem natToStr_no_lbracket (n : Nat) : '[' ∉ natToStr n := by
  intro h
  rcases natToStrAux_mem (n + 1) n [] '[' h with h1 | h1
  · exact absurd h1 (by decide)
  · exact absurd h1 (List.not_mem_nil '[')

/-- Joining two marker-free lines with a newline stays marker-free. -/
theorem markerJoinFree {p q : Str} (hp : ¬ ("[truncated]".data <:+: p))
    (hq : ¬ ("[truncated]".data <:+: q)) :
    ¬ ("[truncated]".data <:+: p ++ '\n' :: q) := fun h =>
  (infixThroughSep (by decide) h).elim hp hq

/-- An occurrence in the left line is an occurrence in the join. -/
theorem infixJoinLeft {x p q : Str} (h : x <:+: p) : x <:+: p ++ '\n' :: q :=
  h.trans (List.prefix_append p ('\n' :: q)).isInfix

/-- An occurrence in the right line is an occurrence in the join. -/
theorem infixJoinRight {x p q : Str} (h : x <:+: q) : x <:+: p ++ '\n' :: q := by
  have h2 : q <:+ p ++ '\n' :: q := ⟨p ++ ['\n'], by simp⟩
  exact h.trans h2.isInfix

/-- The exit-code header line of the shell summary is marker-free. -/
theorem headerNoMarker (ec : Int) :
    ¬ ("[truncated]".data <:+:
      ("Command exited with code ".data ++ intToStr ec ++ ".".data)) := by
  apply markerNotWithin
  intro h
  rcases List.mem_append.mp h with h1 | h1
  · rcases List.mem_append.mp h1 with h2 | h2
    · exact absurd h2 (by decide)
    · exact intToStr_no_lbracket ec h2
  · exact absurd h1 (by decide)

/-- C5 counterexample: a whitespace-only stdout of 2001 characters takes the
no-output branch, so the summary does not contain the first 2000 characters
followed by the truncation marker although stdout is strictly longer than
2000 characters. -/
theorem C5_counterexample :
    (List.replicate 2001 ' ').length > 2000 ∧
      ¬ (((List.replicate 2001 ' ').take 2000 ++ " [truncated]".data) <:+:
          (formatOutput { stdout := List.replicate 2001 ' ', stderr := [],
                          exit_code := 0 }).summary) := by
  constructor
  · rw [List.length_replicate]
    omega
  · intro h
    have hstrip : pyStrip (List.replicate 2001 ' ') = [] := by
      rw [pyStrip_eq_nil_iff]
      intro c hc
      rw [List.eq_of_mem_replicate hc]
      decide
    have hsum : (formatOutput
        { stdout := List.replicate 2001 ' ',
          stderr := [], exit_code := 0 }).summary =
        "Command exited with code 0.".data ++ '\n' ::
          "\nNo stdout output.".data := by
      unfold formatOutput summaryParts
      rw [if_neg (fun hna => hna hstrip), if_neg (fun hna => hna rfl)]
      simp only [List.singleton_append, List.append_nil]
      rw [intercalate_pair]
      decide
    rw [hsum] at h
    have hl := h.length_le
    have h46 : ("Command exited with code 0.".data ++ '\n' ::
        "\nNo stdout output.".data : Str).length = 46 := by decide
    rw [h46, List.length_append, List.length_take,
      List.length_replicate] at hl
    have h12 : (" [truncated]".data : Str).length = 12 := by decide
    rw [h12] at hl
    omega

/-- The summary join in the shape produced by a three-part `summary_parts`. -/
theorem intercalate_sss (p q r : Str) :
    List.intercalate "\n".data (([p] ++ [q]) ++ [r]) =
      p ++ '\n' :: (q ++ '\n' :: r) := by
  simp [List.intercalate, List.intersperse]

/-- The summary join in the shape produced by a two-part `summary_parts`. -/
theorem intercalate_ssn (p q : Str) :
    List.intercalate "\n".data (([p] ++ [q]) ++ []) = p ++ '\n' :: q := by
  simp [List.intercalate, List.intersperse]

/-- C5 amended: when stdout has a non-whitespace character and is strictly
longer than 2000 characters, the summary contains the first 2000 characters
of stdout immediately followed by the ` [truncated]` marker; when stdout has
at most 2000 characters, stderr has at most 500 characters, and neither
stream itself contains the marker text, the summary does not contain the
marker (the original claim fails for whitespace-only stdout, which takes the
no-output branch, and ignores the stderr block's own marker). -/
theorem C5_amended (stdout stderr : Str) (exit_code : Int) :
    (pyStrip stdout ≠ [] → stdout.length > 2000 →
      (stdout.take 2000 ++ " [truncated]".data) <:+:
        (formatOutput { stdout := stdout, stderr := stderr,
                        exit_code := exit_code }).summary) ∧
      (stdout.length ≤ 2000 → stderr.length ≤ 500 →
        ¬ ("[truncated]".data <:+: stdout) →
        ¬ ("[truncated]".data <:+: stderr) →
        ¬ ("[truncated]".data <:+:
          (formatOutput { stdout := stdout, stderr := stderr,
                          exit_code := exit_code }).summary)) := by
  constructor
  · intro hne hlen
    unfold formatOutput summaryParts
    rw [if_pos hne, if_pos hlen]
    have hshape : "\nstdout (".data ++ natToStr stdout.length
        ++ " bytes):\n".data ++ stdout.take 2000 ++ " [truncated]".data
        = ("\nstdout (".data ++ natToStr stdout.length ++ " bytes):\n".data)
          ++ (stdout.take 2000 ++ " [truncated]".data) := by
      simp [List.append_assoc]
    by_cases hse : pyStrip stderr ≠ []
    · rw [if_pos hse, intercalate_sss]
      apply infixJoinRight
      apply infixJoinLeft
      rw [hshape]
      exact (List.suffix_append _ _).isInfix
    · rw [if_neg hse, intercalate_ssn]
      apply infixJoinRight
      rw [hshape]
      exact (List.suffix_append _ _).isInfix
  · intro h2000 h500 hsm hsem
    unfold formatOutput summaryParts
    rw [if_neg (by omega : ¬ stdout.length > 2000),
      if_neg (by omega : ¬ stderr.length > 500)]
    have hsf : ¬ ("[truncated]".data <:+:
        ("\nstdout (".data ++ natToStr stdout.length ++ " bytes):\n".data
          ++ stdout.take 2000 ++ [])) := by
      rw [List.append_nil]
      rw [show (" bytes):\n".data : Str) = " bytes):".data ++ ['\n'] from by decide]
      rw [show "\nstdout (".data ++ natToStr stdout.length
          ++ (" bytes):".data ++ ['\n']) ++ stdout.take 2000
          = ("\nstdout (".data ++ natToStr stdout.length ++ " bytes):".data)
            ++ '\n' :: stdout.take 2000 from by simp]
      refine markerJoinFree (markerNotWithin ?_)
        (fun hin => hsm (hin.trans (List.take_prefix 2000 stdout).isInfix))
      intro hm
      rcases List.mem_append.mp hm with h1 | h1
      · rcases List.mem_append.mp h1 with hA | hA
        · exact absurd hA (by decide)
        · exact natToStr_no_lbracket _ hA
      · exact absurd h1 (by decide)
    have hef : ¬ ("[truncated]".data <:+:
        ("\nstderr (".data ++ natToStr stderr.length ++ " bytes):\n".data
          ++ stderr.take 500 ++ [])) := by
      rw [List.append_nil]
      rw [show (" bytes):\n".data : Str) = " bytes):".data ++ ['\n'] from by decide]
      rw [show "\nstderr (".data ++ natToStr stderr.length
          ++ (" bytes):".data ++ ['\n']) ++ stderr.take 500
          = ("\nstderr (".data ++ natToStr stderr.length ++ " bytes):".data)
            ++ '\n' :: stderr.take 500 from by simp]
      refine markerJoinFree (markerNotWithin ?_)
        (fun hin => hsem (hin.trans (List.take_prefix 500 stderr).isInfix))
      intro hm
      rcases List.mem_append.mp hm with h1 | h1
      · rcases List.mem_append.mp h1 with hA | hA
        · exact absurd hA (by decide)
        · exact natToStr_no_lbracket _ hA
      · exact absurd h1 (by decide)
    have hnoOut : ¬ ("[truncated]".data <:+:
        ("\nNo stdout output.".data : Str)) := markerNotWithin (by decide)
    by_cases hso : pyStrip stdout ≠ []
    · by_cases hseb : pyStrip stderr ≠ []
      · rw [if_pos hso, if_pos hseb, intercalate_sss]
        exact markerJoinFree (headerNoMarker exit_code)
          (markerJoinFree hsf hef)
      · rw [if_pos hso, if_neg hseb, intercalate_ssn]
        exact markerJoinFree (headerNoMarker exit_code) hsf
    · by_cases hseb : pyStrip stderr ≠ []
      · rw [if_neg hso, if_pos hseb, intercalate_sss]
        exact markerJoinFree (headerNoMarker exit_code)
          (markerJoinFree hnoOut hef)
      · rw [if_neg hso, if_neg hseb, intercalate_ssn]
        exact markerJoinFree (headerNoMarker exit_code) hnoOut

/-- Witness for C5 amended: a 2001-character non-whitespace stdout is
truncated with the marker, and a short stdout yields a marker-free summary. -/
theorem C5_amended_witness :
    (((List.replicate 2001 'a').take 2000 ++ " [truncated]".data) <:+:
        (formatOutput { stdout := List.replicate 2001 'a', stderr := [],
                        exit_code := 0 }).summary) ∧
      ¬ ("[truncated]".data <:+:
        (formatOutput { stdout := "ok".data, stderr := [],
                        exit_code := 0 }).summary) :=
  ⟨(C5_amended (List.replicate 2001 'a') [] 0).1
      (by
        intro hcon
        rw [pyStrip_eq_nil_iff] at hcon
        have := hcon 'a' (List.mem_replicate.mpr ⟨by omega, rfl⟩)
        exact absurd this (by decide))
      (by rw [List.length_replicate]; omega),
   (C5_amended "ok".data [] 0).2 (by decide) (by decide) (by decide) (by decide)⟩

set_option maxRecDepth 8192 in
/-- C6: for every parsed host, the open-ports summary is the comma-joined
`port/protocol (service)` list of exactly the ports whose state is the
string `open`; on the fixture document with one host having one open port
22/tcp running ssh, the host's summary is `22/tcp (ssh)` and the digest
contains that line. -/
theorem C6_open_ports_summary_law :
    (∀ (he : Xml) (host : HostData), parseHost he = .ok host →
      host.open_ports_summary = openPortsSummary host.ports) ∧
      (∃ res, parseNmapXml fixtureXml = .ok res ∧
        res.hosts.map (fun h => h.open_ports_summary) = ["22/tcp (ssh)".data] ∧
        ("  Open ports: 22/tcp (ssh)".data <:+: res.summary)) := by
  constructor
  · intro he host h
    unfold parseHost at h
    revert h
    cases parseHostPorts he with
    | error e => intro h; exact Except.noConfusion h
    | ok ports =>
      intro h
      injection h with h
      rw [← h]
  · exact ⟨_, rfl, by decide, by decide⟩

set_option maxRecDepth 8192 in
/-- Witness for C6 at the fixture host element. -/
theorem C6_witness :
    fixtureHostData.open_ports_summary =
      openPortsSummary fixtureHostData.ports :=
  C6_open_ports_summary_law.1 fixtureHostElem fixtureHostData (by decide)

/-- C7: both pipeline variants dispatch validate, execute and structure
sequentially with per-stage policies (1 attempt, 30 s, no heartbeat),
(3 attempts, 4 h, 2 min heartbeat), (2 attempts, 60 s, no heartbeat), and
each stage's materialized outcome feeds the next stage (validate's boolean
result discarded, execute's result fed to the structurer), as the monadic
composition laws state. -/
theorem C7_stage_policies_and_sequencing :
    shellValidatePolicy = { maximumAttempts := 1, startToCloseSeconds := 30,
                            heartbeatSeconds := none } ∧
      shellExecutePolicy = { maximumAttempts := 3,
                             startToCloseSeconds := 14400,
                             heartbeatSeconds := some 120 } ∧
      shellFormatPolicy = { maximumAttempts := 2, startToCloseSeconds := 60,
                            heartbeatSeconds := none } ∧
      nmapValidatePolicy = shellValidatePolicy ∧
      nmapExecutePolicy = shellExecutePolicy ∧
      nmapParsePolicy = shellFormatPolicy ∧
      (∀ (execOutcome : Except Str RawResult) (inp : ShellCommandInput),
        shellWorkflowRun execOutcome inp =
          (validateCommand inp).bind (fun _ =>
            execOutcome.bind (fun raw => .ok (formatOutput raw)))) ∧
      (∀ (execOutcome : Except Str Str)
          (fromstring : Str → Except Str Xml) (inp : NmapScanInput),
        nmapWorkflowRun execOutcome fromstring inp =
          (validateScanInput inp).bind (fun _ =>
            execOutcome.bind (fun raw_xml =>
              (fromstring raw_xml).bind parseNmapXml))) := by
  refine ⟨rfl, rfl, rfl, rfl, rfl, rfl, ?_, ?_⟩
  · intro execOutcome inp
    unfold shellWorkflowRun executeActivity
    cases validateCommand inp with
    | error e => rfl
    | ok b => cases execOutcome <;> rfl
  · intro execOutcome fromstring inp
    unfold nmapWorkflowRun executeActivity
    cases validateScanInput inp with
    | error e => rfl
    | ok b =>
      cases execOutcome with
      | error e => rfl
      | ok raw =>
        show ((fromstring raw).bind parseNmapXml).bind Except.ok =
          (fromstring raw).bind parseNmapXml
        cases (fromstring raw).bind parseNmapXml <;> rfl

/-- C8 counterexample: the scan-variant execute activity returns the bare
decoded stdout string, not a three-field record — two executions differing
only in their captured stderr produce identical results, so the result
cannot carry the stderr (or the exit code). -/
theorem C8_counterexample :
    runNmapScan "<x/>".data "warnA".data 0 = .ok "<x/>".data ∧
      runNmapScan "<x/>".data "warnA".data 0 =
        runNmapScan "<x/>".data "warnB".data 0 := ⟨rfl, rfl⟩

/-- C8 amended: on success the shell-variant execute activity returns the
record with decoded stdout, decoded stderr and the exit code, while the
scan-variant execute activity returns only the decoded stdout (the raw XML),
discarding stderr and exit code. -/
theorem C8_amended (stdout_str stderr_str : Str) (exit_code : Int) :
    runShellCommand stdout_str stderr_str exit_code =
        .ok { stdout := stdout_str, stderr := stderr_str,
              exit_code := exit_code } ∧
      (¬ (exit_code ≠ 0 ∧ pyStrip stdout_str = []) →
        runNmapScan stdout_str stderr_str exit_code = .ok stdout_str) := by
  refine ⟨rfl, fun h => ?_⟩
  unfold runNmapScan
  rw [if_neg h]

/-- Witness for C8 amended at concrete successful executions. -/
theorem C8_amended_witness :
    runShellCommand "a".data "b".data 3 =
        .ok { stdout := "a".data, stderr := "b".data, exit_code := 3 } ∧
      runNmapScan "<x/>".data "warn".data 0 = .ok "<x/>".data :=
  ⟨(C8_amended "a".data "b".data 3).1,
   (C8_amended "<x/>".data "warn".data 0).2 (by decide)⟩

set_option maxRecDepth 8192 in
/-- C9 counterexample: with a whitespace-only stdout and a 501-character
stderr, the summary does contain the truncation marker (appended by the
stderr block), contradicting the claim that it never does. -/
theorem C9_counterexample :
    " ".data ≠ ([] : Str) ∧ pyStrip " ".data = [] ∧
      "[truncated]".data <:+:
        (formatOutput { stdout := " ".data,
                        stderr := List.replicate 501 'e',
                        exit_code := 0 }).summary := by
  refine ⟨by decide, rfl, by decide⟩

/-- C9 amended: for a non-empty whitespace-only stdout the structured result
carries stdout unchanged, the summary is exactly the exit-code header joined
with the `No stdout output.` line (plus the stderr block when stderr is
non-blank, hence no stdout block), the summary contains `No stdout output.`,
and — when stderr is blank — the summary contains no truncation marker. -/
theorem C9_amended (stdout stderr : Str) (exit_code : Int) :
    stdout ≠ [] → pyStrip stdout = [] →
      (formatOutput ⟨stdout, stderr, exit_code⟩).stdout = stdout ∧
        (formatOutput ⟨stdout, stderr, exit_code⟩).summary =
          List.intercalate "\n".data
            ((["Command exited with code ".data ++ intToStr exit_code
                ++ ".".data]
              ++ ["\nNo stdout output.".data])
            ++ (if pyStrip stderr ≠ [] then
                  ["\nstderr (".data ++ natToStr stderr.length
                    ++ " bytes):\n".data ++ stderr.take 500
                    ++ (if stderr.length > 500 then " [truncated]".data
                        else [])]
                else [])) ∧
        ("No stdout output.".data <:+:
          (formatOutput ⟨stdout, stderr, exit_code⟩).summary) ∧
        (pyStrip stderr = [] →
          ¬ ("[truncated]".data <:+:
            (formatOutput ⟨stdout, stderr, exit_code⟩).summary)) := by
  intro _hne hstrip
  have hni : ¬ (pyStrip stdout ≠ []) := fun hq => hq hstrip
  refine ⟨rfl, ?_, ?_, ?_⟩
  · unfold formatOutput summaryParts
    rw [if_neg hni]
  · unfold formatOutput summaryParts
    rw [if_neg hni]
    by_cases hse : pyStrip stderr ≠ []
    · rw [if_pos hse, intercalate_sss]
      apply infixJoinRight
      apply infixJoinLeft
      decide
    · rw [if_neg hse, intercalate_ssn]
      apply infixJoinRight
      decide
  · intro hsee
    have hnie : ¬ (pyStrip stderr ≠ []) := fun hq => hq hsee
    unfold formatOutput summaryParts
    rw [if_neg hni, if_neg hnie, intercalate_ssn]
    exact markerJoinFree (headerNoMarker exit_code)
      (markerNotWithin (by decide))

/-- Witness for C9 amended at a concrete whitespace-only stdout. -/
theorem C9_amended_witness :
    (formatOutput ⟨"  ".data, [], 0⟩).stdout = "  ".data ∧
      ¬ ("[truncated]".data <:+:
        (formatOutput ⟨"  ".data, [], 0⟩).summary) :=
  ⟨(C9_amended "  ".data [] 0 (by decide) rfl).1,
   (C9_amended "  ".data [] 0 (by decide) rfl).2.2.2 rfl⟩

/-- C10 counterexample: a newline-only option string is whitespace-only, yet
validation fails — the metacharacter deny-list (which includes newline) is
checked before the option string is stripped and tokenized. -/
theorem C10_counterexample :
    pyStrip "\n".data = [] ∧
      containsBlockedMeta "scanme.nmap.org".data = false ∧
      pyStrip "scanme.nmap.org".data ≠ [] ∧
      (validateScanInput
        { target := "scanme.nmap.org".data,
          nmap_args := "\n".data,
          scan_id := "s".data }).isOk = false := by
  refine ⟨rfl, by decide, by decide, by decide⟩

/-- C10 amended: when the option string is empty or consists only of
whitespace characters other than newline and carriage return (those are
rejected by the metacharacter deny-list), and the target passes the
deny-list and non-emptiness checks, validation succeeds and the executed
argv is exactly `["nmap", "-oX", "-", target]`, with no shell interpreter in
the chain. -/
theorem C10_amended (target args scan_id : Str) :
    (∀ c ∈ args, isPyWs c) → (∀ c ∈ args, c ≠ '\n' ∧ c ≠ '\r') →
    containsBlockedMeta target = false → pyStrip target ≠ [] →
      validateScanInput ⟨target, args, scan_id⟩ = .ok true ∧
        nmapCommand ⟨target, args, scan_id⟩ =
          .ok ["nmap".data, "-oX".data, "-".data, target] := by
  intro hws hnl hmt htne
  have hma : containsBlockedMeta args = false := by
    unfold containsBlockedMeta
    simp only [List.any_eq_false]
    intro c hc
    have hw := hws c hc
    have hn := hnl c hc
    unfold isPyWs at hw
    simp only [Bool.or_eq_true, decide_eq_true_eq] at hw
    intro hcon
    rcases hw with ((((rfl | rfl) | rfl) | rfl) | rfl) | rfl
    · exact absurd hcon (by decide)
    · exact absurd hcon (by decide)
    · exact absurd rfl hn.1
    · exact absurd rfl hn.2
    · exact absurd hcon (by decide)
    · exact absurd hcon (by decide)
  have hargsblank : pyStrip args = [] := (pyStrip_eq_nil_iff args).mpr hws
  have htok : argsTokens args = .ok [] := by
    unfold argsTokens
    rw [if_neg (fun hq => hq hargsblank)]
  constructor
  · unfold validateScanInput
    rw [if_neg (by simp [hmt]), if_neg (by simp [hma]), htok]
    simp [htne]
  · unfold nmapCommand
    rw [htok]
    rfl

/-- Witness for C10 amended at a concrete blank option string. -/
theorem C10_amended_witness :
    validateScanInput
        { target := "scanme.nmap.org".data, nmap_args := " ".data,
          scan_id := "s".data } = .ok true ∧
      nmapCommand
          { target := "scanme.nmap.org".data, nmap_args := " ".data,
            scan_id := "s".data } =
        .ok ["nmap".data, "-oX".data, "-".data, "scanme.nmap.org".data] :=
  C10_amended "scanme.nmap.org".data " ".data "s".data
    (by decide) (by decide) (by decide) (by decide)
